import Mathlib

/-!
Verification development for the live-darshan stream finder
(`find_live_streams_v3.py`, the most evolved variant in the repository).

The Python source is shallowly embedded: pure functions become Lean
functions, Python `dict.get` with a default becomes `Option.getD`, Python
dicts keyed by strings become association lists, and the network layer is
modelled by passing the provider's per-query outcome in as data.
-/

/-! ## Case-insensitive substring containment

Python `needle.lower() in haystack.lower()`.  `occursInChars` mirrors the
semantics of Python's `in` on strings (the empty needle occurs in every
haystack). -/

def startsWithChars : List Char → List Char → Bool
  | [], _ => true
  | _ :: _, [] => false
  | a :: as, b :: bs => a == b && startsWithChars as bs

def occursInChars (needle : List Char) : List Char → Bool
  | [] => needle.isEmpty
  | b :: bs => startsWithChars needle (b :: bs) || occursInChars needle bs

/-- ASCII lowering, character by character.  Python's `str.lower()` agrees
on the config's keyword alphabets (ASCII; Devanagari has no case). -/
def toLowerChar (c : Char) : Char :=
  if 'A' ≤ c ∧ c ≤ 'Z' then Char.ofNat (c.toNat + 32) else c

def lowerChars (cs : List Char) : List Char :=
  cs.map toLowerChar

def containsCI (hay needle : String) : Bool :=
  occursInChars (lowerChars needle.data) (lowerChars hay.data)

/-! ## Data model (config records and API records) -/

/-- One entry of a temple's `trusted_channels` config list. -/
structure TrustedChannel where
  id : String
  name : String
deriving DecidableEq, Repr

/-- A venue ("temple") config record.  `fallback_search` is `none` when the
config omits the key (Python `temple.get('fallback_search', default)`).
`priority` is present in the config (and used by the spec's output
ordering) though v3's code never reads it. -/
structure Temple where
  id : String
  name : String
  priority : Nat
  title_keywords : List String
  trusted_channels : List TrustedChannel
  fallback_search : Option String
deriving DecidableEq, Repr

/-- The global filter config.  Fields hold the values after Python's
`filters.get(key, default)` defaulting (`[]` and `0`). -/
structure Filters where
  exclude_title_keywords : List String
  min_viewer_count_untrusted : Nat
deriving DecidableEq, Repr

/-- One item of a search response; only `id.videoId` is read by the
pipeline, and it may be absent (`none`). -/
structure SearchItem where
  videoId : Option String
deriving DecidableEq, Repr

/-- A video-details record (`videos.list` response item).  `Option` fields
model keys that may be absent and are read with a default:
`status.get('embeddable', True)`, `liveStreamingDetails.get('concurrentViewers', ...)`,
`snippet.get('thumbnails',{}).get('high',{}).get('url', default)`. -/
structure Video where
  title : String
  channelId : String
  channelTitle : String
  embeddable : Option Bool
  concurrentViewers : Option Nat
  actualStartTime : Option String
  publishedAt : Option String
  thumbnailHigh : Option String
deriving DecidableEq, Repr

/-- Parsed viewer count: both read sites of the source default a missing
`concurrentViewers` to `0`. -/
def viewerCount (v : Video) : Nat :=
  v.concurrentViewers.getD 0

/-- `channel_id in [ch['id'] for ch in temple.get('trusted_channels', [])]`. -/
def isTrustedFor (temple : Temple) (channel_id : String) : Bool :=
  (temple.trusted_channels.map (fun ch => ch.id)).contains channel_id

/-! ## `find_matching_temple` (source lines 111-126)

The source iterates temples in declaration order and, inside each temple,
its `title_keywords` in order; the first keyword that occurs
(case-insensitively) in the title returns that temple's id together with
whether the channel is in that temple's trust list.  Trust membership is
only consulted after a keyword hit. -/

def find_matching_temple (title channel_id : String) : List Temple → Option String × Bool
  | [] => (none, false)
  | temple :: rest =>
    if temple.title_keywords.any (fun kw => containsCI title kw) then
      (some temple.id, isTrustedFor temple channel_id)
    else
      find_matching_temple title channel_id rest

/-! ## `passes_filters` (source lines 129-157) -/

def passes_filters (video : Video) (filters : Filters) (isTrusted : Bool) : Bool :=
  if !(video.embeddable.getD true) then
    false
  else if filters.exclude_title_keywords.any (fun kw => containsCI video.title kw) then
    false
  else if !isTrusted && viewerCount video < filters.min_viewer_count_untrusted then
    false
  else
    true

/-! ## `extract_stream_info` (source lines 160-186) -/

structure StreamInfo where
  temple_id : String
  temple_name : String
  video_id : String
  url : String
  embed_url : String
  title : String
  channel : String
  channel_id : String
  viewer_count : Nat
  is_trusted_channel : Bool
  stream_started_at : String
  published_at : String
  thumbnail : String
deriving DecidableEq, Repr

def extract_stream_info (video_id : String) (video : Video) (temple : Temple)
    (isTrusted : Bool) : StreamInfo where
  temple_id := temple.id
  temple_name := temple.name
  video_id := video_id
  url := "https://www.youtube.com/watch?v=" ++ video_id
  embed_url := "https://www.youtube.com/embed/" ++ video_id
  title := video.title
  channel := video.channelTitle
  channel_id := video.channelId
  viewer_count := viewerCount video
  is_trusted_channel := isTrusted
  stream_started_at := video.actualStartTime.getD ""
  published_at := video.publishedAt.getD ""
  thumbnail := video.thumbnailHigh.getD
    ("https://img.youtube.com/vi/" ++ video_id ++ "/hqdefault.jpg")

/-! ## `api_request` (source lines 25-39)

The network call either yields a parsed response body or fails
(`HTTPError`, or any other exception: timeout, transport error, malformed
JSON).  The source catches every failure and returns the empty dict `{}`;
every caller then reads `data.get('items', [])`, so an error behaves as an
empty item list.  The outcome of the remote call is passed in as data. -/

inductive ApiOutcome (α : Type) where
  | ok : α → ApiOutcome α
  | httpError : Nat → String → ApiOutcome α
  | exn : String → ApiOutcome α
deriving DecidableEq, Repr

/-- A parsed search response body, reduced to the only key the pipeline
reads: `items`. -/
structure ApiData where
  items : List SearchItem
deriving DecidableEq, Repr

/-- The empty dict `{}` returned on failure, as seen through
`data.get('items', [])`. -/
def emptyData : ApiData := { items := [] }

def api_request : ApiOutcome ApiData → ApiData
  | .ok data => data
  | .httpError _ _ => emptyData
  | .exn _ => emptyData

/-! ## `global_search` (source lines 48-83)

Folds over the query templates; each query's response items are folded
through the dedup step.  An item enters the pool only if its `videoId` is
present, non-empty (Python truthiness: `if not video_id: continue` style
check `if video_id and video_id not in seen_ids`), and unseen. -/

def dedupStep (st : List SearchItem × List String) (item : SearchItem) :
    List SearchItem × List String :=
  match item.videoId with
  | none => st
  | some vid =>
    if vid ≠ "" ∧ ¬ st.2.contains vid then
      (st.1 ++ [item], vid :: st.2)
    else
      st

def global_search (queries : List String) (dateStr : String)
    (provider : String → ApiOutcome ApiData) : List SearchItem :=
  (queries.foldl
    (fun st template =>
      let query := template.replace "{date}" dateStr
      let items := (api_request (provider query)).items
      items.foldl dedupStep st)
    ([], [])).1

/-! ## The assignment map

Python's `assigned` dict (`temple_id -> {stream, is_trusted, viewer_count}`)
is embedded as an association list with dict semantics: overwriting an
existing key updates it in place, a fresh key is appended. -/

structure AssignEntry where
  stream : StreamInfo
  isTrusted : Bool
  viewer_count : Nat
deriving DecidableEq, Repr

abbrev Assigned := List (String × AssignEntry)

def lookupA (m : Assigned) (k : String) : Option AssignEntry :=
  (m.find? (fun p => p.1 == k)).map (fun p => p.2)

def updateA (m : Assigned) (k : String) (v : AssignEntry) : Assigned :=
  if m.any (fun p => p.1 == k) then
    m.map (fun p => if p.1 == k then (k, v) else p)
  else
    m ++ [(k, v)]

/-! ## The bulk pass (Phase 3, source lines 289-349)

One fold over the search results.  Each item is looked up in the video
details dict; an item whose id is missing, empty, or without details is
skipped (`if not video_id or video_id not in video_details: continue`).
Matched-and-passing candidates go through the replacement rule; candidates
matching no temple are appended to the unmatched list. -/

structure UnmatchedItem where
  video_id : String
  title : String
  channel_id : String
  channel_name : String
deriving DecidableEq, Repr

structure BulkState where
  assigned : Assigned
  unmatched : List UnmatchedItem
deriving Repr

/-- The replacement decision of source lines 328-340. -/
def should_assign (assigned : Assigned) (temple_id : String)
    (isTrusted : Bool) (vc : Nat) : Bool :=
  match lookupA assigned temple_id with
  | none => true
  | some current =>
    (isTrusted && !current.isTrusted) ||
      (isTrusted == current.isTrusted && vc > current.viewer_count)

/-- The assignment-map value built at source lines 343-347. -/
def bulkEntry (video_id : String) (video : Video) (temple : Temple)
    (isTrusted : Bool) : AssignEntry where
  stream := extract_stream_info video_id video temple isTrusted
  isTrusted := isTrusted
  viewer_count := viewerCount video

def bulkStep (temples : List Temple) (filters : Filters)
    (video_details : List (String × Video)) (st : BulkState)
    (item : SearchItem) : BulkState :=
  match item.videoId with
  | none => st
  | some video_id =>
    if video_id = "" then st
    else
      match List.lookup video_id video_details with
      | none => st
      | some video =>
        let title := video.title
        let channel_id := video.channelId
        match find_matching_temple title channel_id temples with
        | (none, _) =>
          { st with unmatched := st.unmatched ++
              [{ video_id := video_id, title := title,
                 channel_id := channel_id, channel_name := video.channelTitle }] }
        | (some temple_id, isTrusted) =>
          match temples.find? (fun t => t.id == temple_id) with
          | none => st
          | some temple =>
            if passes_filters video filters isTrusted then
              if should_assign st.assigned temple_id isTrusted (viewerCount video) then
                { st with assigned :=
                    updateA st.assigned temple_id (bulkEntry video_id video temple isTrusted) }
              else st
            else st

def bulkPass (temples : List Temple) (filters : Filters)
    (video_details : List (String × Video))
    (search_results : List SearchItem) : BulkState :=
  search_results.foldl (bulkStep temples filters video_details)
    { assigned := [], unmatched := [] }

/-! ## `fallback_search` (Phase 4 per-temple search, source lines 189-248)

The query string defaults to `"<name> live darshan"` when the config has no
`fallback_search` key.  The post-search selection first tries every
trusted-channel candidate in result order, then retries all candidates in
result order, returning the first passer of each loop. -/

def fallbackQuery (temple : Temple) : String :=
  temple.fallback_search.getD (temple.name ++ " live darshan")

/-- Body of the first selection loop (source lines 224-234): a candidate
is taken here only if its details are present, its channel is trusted for
the temple, and it passes the filter with `is_trusted=True`. -/
def fbTrustedProbe (temple : Temple) (filters : Filters)
    (details : List (String × Video)) (vid : String) : Option StreamInfo :=
  match List.lookup vid details with
  | none => none
  | some video =>
    if isTrustedFor temple video.channelId then
      if passes_filters video filters true then
        some (extract_stream_info vid video temple true)
      else none
    else none

/-- Body of the second selection loop (source lines 237-246): any
candidate with details present that passes the filter at its own trust
level. -/
def fbAnyProbe (temple : Temple) (filters : Filters)
    (details : List (String × Video)) (vid : String) : Option StreamInfo :=
  match List.lookup vid details with
  | none => none
  | some video =>
    if passes_filters video filters (isTrustedFor temple video.channelId) then
      some (extract_stream_info vid video temple
        (isTrustedFor temple video.channelId))
    else none

/-- The selection over the fallback result pool (`video_ids` in result
order, `details` the details dict): source lines 220-248.  Both loops run
over `video_ids` in result order; the source performs no sorting. -/
def fallback_select (temple : Temple) (filters : Filters)
    (video_ids : List String) (details : List (String × Video)) :
    Option StreamInfo :=
  match video_ids.findSome? (fbTrustedProbe temple filters details) with
  | some s => some s
  | none => video_ids.findSome? (fbAnyProbe temple filters details)

/-! ### The claim's description of the second fallback loop

The claim (and spec §4.5 step 2) describes the second loop as running over
the candidates sorted by "trusted first, then descending viewer_count".
The following definitions follow the claim's words (not the source) so the
source's behaviour can be compared against them. -/

/-- Sort key per the claim's words: trusted channels rank `0`, untrusted
`1`; within a rank, higher viewer counts first (negated count). A missing
details record ranks untrusted with zero viewers. -/
def fbClaimKey (temple : Temple) (details : List (String × Video))
    (vid : String) : Int × Int :=
  match List.lookup vid details with
  | none => (1, 0)
  | some video =>
    (if isTrustedFor temple video.channelId then 0 else 1,
      -(viewerCount video : Int))

def keyLe (a b : Int × Int) : Bool :=
  a.1 < b.1 || (a.1 == b.1 && a.2 ≤ b.2)

/-- Stable insertion (ties keep encounter order, as Python's stable sort
would). -/
def insertRanked (key : String → Int × Int) (vid : String) :
    List String → List String
  | [] => [vid]
  | b :: bs =>
    if keyLe (key vid) (key b) then vid :: b :: bs
    else b :: insertRanked key vid bs

def sortRanked (key : String → Int × Int) (l : List String) : List String :=
  l.foldr (insertRanked key) []

/-- Modelled from the claim's words: identical first loop, but the second
loop runs over the pool sorted by `(trusted first, then descending
viewer_count)`.  Compared against `fallback_select`, which embeds the
source. -/
def fallback_select_claimed (temple : Temple) (filters : Filters)
    (video_ids : List String) (details : List (String × Video)) :
    Option StreamInfo :=
  match video_ids.findSome? (fbTrustedProbe temple filters details) with
  | some s => some s
  | none =>
    (sortRanked (fbClaimKey temple details) video_ids).findSome?
      (fbAnyProbe temple filters details)

/-- The whole fallback search for one temple.  The fallback provider's
response items and the details dict for the fallback pool are passed in as
data, keyed by the query string. -/
def fallback_search (temple : Temple) (filters : Filters)
    (fbProvider : String → ApiOutcome ApiData)
    (fbDetails : String → List (String × Video)) : Option StreamInfo :=
  let query := fallbackQuery temple
  let items := (api_request (fbProvider query)).items
  if items.isEmpty then none
  else
    let video_ids := items.filterMap (fun item => item.videoId)
    if video_ids.isEmpty then none
    else fallback_select temple filters video_ids (fbDetails query)

/-! ## Phase 4 (source lines 354-400)

`missing_temples` is computed once, after the bulk pass.  For each missing
temple the unmatched leftovers are rechecked for a trusted channel first;
only if that fails is the temple's fallback query issued.  The phase also
returns an audit log: the ids of the temples it processed and the
`(temple id, query)` pairs it issued. -/

def missing_temples (temples : List Temple) (assigned : Assigned) : List Temple :=
  temples.filter (fun t => !(assigned.any (fun p => p.1 == t.id)))

/-- The unmatched-leftovers recheck for one temple (source lines 365-383):
scan the unmatched list for the first item whose channel is trusted for
this temple, whose details are available, and which passes the filter with
`is_trusted=True`. -/
def recheckUnmatched (temple : Temple) (filters : Filters)
    (video_details : List (String × Video))
    (unmatched : List UnmatchedItem) : Option AssignEntry :=
  unmatched.findSome? (fun item =>
    if isTrustedFor temple item.channel_id then
      match List.lookup item.video_id video_details with
      | none => none
      | some video =>
        if passes_filters video filters true then
          some { stream := extract_stream_info item.video_id video temple true,
                 isTrusted := true,
                 viewer_count := viewerCount video }
        else none
    else none)

structure FallbackResult where
  assigned : Assigned
  processedIds : List String
  issuedQueries : List (String × String)
deriving Repr

def fallbackStep (filters : Filters) (video_details : List (String × Video))
    (unmatched : List UnmatchedItem)
    (fbProvider : String → ApiOutcome ApiData)
    (fbDetails : String → List (String × Video))
    (acc : FallbackResult) (temple : Temple) : FallbackResult :=
  let acc := { acc with processedIds := acc.processedIds ++ [temple.id] }
  match recheckUnmatched temple filters video_details unmatched with
  | some entry =>
    { acc with assigned := updateA acc.assigned temple.id entry }
  | none =>
    let acc := { acc with
      issuedQueries := acc.issuedQueries ++ [(temple.id, fallbackQuery temple)] }
    match fallback_search temple filters fbProvider fbDetails with
    | some stream =>
      let entry : AssignEntry :=
        { stream := stream, isTrusted := stream.is_trusted_channel,
          viewer_count := stream.viewer_count }
      { acc with assigned := updateA acc.assigned temple.id entry }
    | none => acc

def fallbackPhase (temples : List Temple) (filters : Filters)
    (video_details : List (String × Video)) (st : BulkState)
    (fbProvider : String → ApiOutcome ApiData)
    (fbDetails : String → List (String × Video)) : FallbackResult :=
  (missing_temples temples st.assigned).foldl
    (fallbackStep filters video_details st.unmatched fbProvider fbDetails)
    { assigned := st.assigned, processedIds := [], issuedQueries := [] }

/-! ## Phase 5 output (source lines 407-417)

`for temple in temples: if temple['id'] in assigned: append(stream)` —
the emitted order is the declaration order of the temples list. -/

def outputStreams (temples : List Temple) (assigned : Assigned) : List StreamInfo :=
  temples.filterMap (fun t => (lookupA assigned t.id).map (fun e => e.stream))

/-- The priority of the venue an output record belongs to (looked up from
the config; `999`-style missing default never fires since every emitted
record carries an id from the temples list). -/
def streamPriority (temples : List Temple) (s : StreamInfo) : Nat :=
  match temples.find? (fun t => t.id == s.temple_id) with
  | some t => t.priority
  | none => 0

/-! ## Concrete fixture data used by witnesses and counterexamples -/

def c1Temple : Temple where
  id := "somnath"
  name := "Somnath"
  priority := 1
  title_keywords := ["somnath"]
  trusted_channels := [{ id := "UC-som", name := "Somnath TV" }]
  fallback_search := none

def mkVideo (title channelId : String) (viewers : Nat) : Video where
  title := title
  channelId := channelId
  channelTitle := "ch"
  embeddable := some true
  concurrentViewers := some viewers
  actualStartTime := none
  publishedAt := none
  thumbnailHigh := none

/-! ## Helper lemmas on the assignment map and on `findSome?` -/

theorem lookupA_append_self (m : Assigned) (k : String) (v : AssignEntry)
    (h : m.any (fun p => p.1 == k) = false) :
    lookupA (m ++ [(k, v)]) k = some v := by
  induction m with
  | nil => simp [lookupA, List.find?]
  | cons p m ih =>
    simp only [List.any_cons, Bool.or_eq_false_iff] at h
    simp only [List.cons_append, lookupA, List.find?, h.1]
    exact ih h.2

theorem lookupA_map_update (m : Assigned) (k : String) (v : AssignEntry)
    (h : m.any (fun p => p.1 == k) = true) :
    lookupA (m.map (fun p => if p.1 == k then (k, v) else p)) k = some v := by
  induction m with
  | nil => simp at h
  | cons p m ih =>
    cases hp : (p.1 == k) with
    | true => simp [lookupA, List.find?, hp]
    | false =>
      simp only [List.any_cons, hp, Bool.false_or] at h
      simp only [List.map_cons, hp, Bool.false_eq_true, if_false, lookupA, List.find?, hp]
      exact ih h

theorem lookupA_updateA_self (m : Assigned) (k : String) (v : AssignEntry) :
    lookupA (updateA m k v) k = some v := by
  unfold updateA
  cases hb : m.any (fun p => p.1 == k) with
  | true =>
    simp only [if_true]
    exact lookupA_map_update m k v hb
  | false =>
    simp only [Bool.false_eq_true, if_false]
    exact lookupA_append_self m k v hb

theorem findSome?_first_hit {α β : Type} (f : α → Option β) (l1 : List α)
    (a : α) (l2 : List α) (b : β)
    (h1 : ∀ x ∈ l1, f x = none) (ha : f a = some b) :
    (l1 ++ a :: l2).findSome? f = some b := by
  induction l1 with
  | nil => simp [List.findSome?, ha]
  | cons x xs ih =>
    have hx : f x = none := h1 x (List.mem_cons_self x xs)
    simp only [List.cons_append, List.findSome?, hx]
    exact ih (fun y hy => h1 y (List.mem_cons_of_mem x hy))

theorem findSome?_all_none {α β : Type} (f : α → Option β) (l : List α)
    (h : ∀ x ∈ l, f x = none) : l.findSome? f = none := by
  induction l with
  | nil => simp [List.findSome?]
  | cons x xs ih =>
    have hx : f x = none := h x (List.mem_cons_self x xs)
    simp only [List.findSome?, hx]
    exact ih (fun y hy => h y (List.mem_cons_of_mem x hy))

/-! ## C1 — venue matching order -/

/-- C1 (amended): the matcher scans venues in declaration order and, within
a venue, `title_keywords` in order with case-insensitive substring tests;
the first venue with a keyword hit wins, and `is_trusted` is then whether
the channel is in that venue's trust list.  Trust membership alone never
produces a match: when no venue has a keyword hit the result is
`(none, false)` even for channels trusted by some venue. -/
theorem matcher_keyword_precedence :
    (∀ (title channel_id : String) (temples : List Temple),
      (∀ u ∈ temples, u.title_keywords.any (fun kw => containsCI title kw) = false) →
      find_matching_temple title channel_id temples = (none, false)) ∧
    (∀ (title channel_id : String) (ts1 : List Temple) (t : Temple) (ts2 : List Temple),
      (∀ u ∈ ts1, u.title_keywords.any (fun kw => containsCI title kw) = false) →
      t.title_keywords.any (fun kw => containsCI title kw) = true →
      find_matching_temple title channel_id (ts1 ++ t :: ts2)
        = (some t.id, isTrustedFor t channel_id)) := by
  constructor
  · intro title channel_id temples h
    induction temples with
    | nil => rfl
    | cons u us ih =>
      have hu : u.title_keywords.any (fun kw => containsCI title kw) = false :=
        h u (List.mem_cons_self u us)
      simp only [find_matching_temple, hu, Bool.false_eq_true, if_false]
      exact ih (fun y hy => h y (List.mem_cons_of_mem u hy))
  · intro title channel_id ts1 t ts2 h1 ht
    induction ts1 with
    | nil => simp [find_matching_temple, ht]
    | cons u us ih =>
      have hu : u.title_keywords.any (fun kw => containsCI title kw) = false :=
        h1 u (List.mem_cons_self u us)
      simp only [List.cons_append, find_matching_temple, hu, Bool.false_eq_true, if_false]
      exact ih (fun y hy => h1 y (List.mem_cons_of_mem u hy))

/-- Witness for `matcher_keyword_precedence` at a concrete input: a title
hitting the keyword of the second venue while missing the first. -/
theorem matcher_keyword_precedence_witness :
    find_matching_temple "Shree Somnath Live Darshan" "UC-x"
        ([{ id := "kashi", name := "Kashi", priority := 2,
            title_keywords := ["kashi"], trusted_channels := [],
            fallback_search := none }] ++ c1Temple :: [])
      = (some c1Temple.id, isTrustedFor c1Temple "UC-x") :=
  matcher_keyword_precedence.2 "Shree Somnath Live Darshan" "UC-x"
    [{ id := "kashi", name := "Kashi", priority := 2,
       title_keywords := ["kashi"], trusted_channels := [],
       fallback_search := none }] c1Temple []
    (by decide) (by decide)

/-- C1 counterexample: the channel `UC-som` is trusted for `c1Temple`, yet
a candidate from that channel whose title has no keyword hit is not
matched at all — the matcher does not test trusted channels before the
keyword scan. -/
theorem matcher_trust_first_counterexample :
    isTrustedFor c1Temple "UC-som" = true ∧
    find_matching_temple "Random Bhajan Video" "UC-som" [c1Temple] = (none, false) ∧
    ((none : Option String), false) ≠ (some c1Temple.id, true) := by
  refine ⟨by decide, by decide, by decide⟩

/-! ## C3 — quality-filter precedence and trust exemption -/

/-- C3: the filter rejects non-embeddable candidates first; then any
candidate whose title contains an excluded keyword (whatever its trust or
viewer count); the viewer floor applies only to untrusted candidates — a
trusted candidate always passes once the first two rules are cleared,
while an untrusted one passes exactly when its viewer count reaches the
floor. -/
theorem filter_precedence_and_trust_exemption (v : Video) (f : Filters) :
    (v.embeddable.getD true = false →
      ∀ b, passes_filters v f b = false) ∧
    (v.embeddable.getD true = true →
      f.exclude_title_keywords.any (fun kw => containsCI v.title kw) = true →
      ∀ b, passes_filters v f b = false) ∧
    (v.embeddable.getD true = true →
      f.exclude_title_keywords.any (fun kw => containsCI v.title kw) = false →
      passes_filters v f true = true ∧
      passes_filters v f false = decide (f.min_viewer_count_untrusted ≤ viewerCount v)) := by
  refine ⟨?_, ?_, ?_⟩
  · intro h b
    simp [passes_filters, h]
  · intro h1 h2 b
    simp [passes_filters, h1, h2]
  · intro h1 h2
    constructor
    · simp [passes_filters, h1, h2]
    · simp only [passes_filters, h1, Bool.not_true, Bool.false_eq_true, if_false, h2,
        Bool.not_false, Bool.true_and]
      rcases Nat.lt_or_ge (viewerCount v) f.min_viewer_count_untrusted with h | h
      · simp [h, Nat.not_le.mpr h]
      · simp [Nat.not_lt.mpr h, h]

/-- Witness for `filter_precedence_and_trust_exemption`: with a viewer
floor of `5`, a trusted candidate with `0` viewers passes while the
otherwise-identical untrusted one fails; an excluded keyword rejects even
a trusted, high-viewer candidate. -/
theorem filter_precedence_witness :
    passes_filters (mkVideo "Mandir Aarti" "UC-som" 0)
      { exclude_title_keywords := ["shorts"], min_viewer_count_untrusted := 5 }
      true = true ∧
    passes_filters (mkVideo "Mandir Aarti" "UC-x" 0)
      { exclude_title_keywords := ["shorts"], min_viewer_count_untrusted := 5 }
      false = false ∧
    passes_filters (mkVideo "Mandir #Shorts" "UC-som" 99999)
      { exclude_title_keywords := ["shorts"], min_viewer_count_untrusted := 5 }
      true = false := by
  refine ⟨?_, ?_, ?_⟩
  · exact ((filter_precedence_and_trust_exemption
      (mkVideo "Mandir Aarti" "UC-som" 0)
      { exclude_title_keywords := ["shorts"], min_viewer_count_untrusted := 5 }).2.2
      (by decide) (by decide)).1
  · exact (((filter_precedence_and_trust_exemption
      (mkVideo "Mandir Aarti" "UC-x" 0)
      { exclude_title_keywords := ["shorts"], min_viewer_count_untrusted := 5 }).2.2
      (by decide) (by decide)).2).trans (by decide)
  · exact (filter_precedence_and_trust_exemption
      (mkVideo "Mandir #Shorts" "UC-som" 99999)
      { exclude_title_keywords := ["shorts"], min_viewer_count_untrusted := 5 }).2.1
      (by decide) (by decide) true

/-! ## C2 — the bulk-pass replacement rule -/

/-- Shape of one bulk step on a matched, filter-passing candidate: it
reduces to the `should_assign` decision. -/
theorem bulkStep_matched (temples : List Temple) (filters : Filters)
    (details : List (String × Video)) (st : BulkState) (item : SearchItem)
    (video_id : String) (video : Video) (temple_id : String)
    (isTrusted : Bool) (temple : Temple)
    (hid : item.videoId = some video_id) (hne : video_id ≠ "")
    (hdet : List.lookup video_id details = some video)
    (hmatch : find_matching_temple video.title video.channelId temples
      = (some temple_id, isTrusted))
    (hfind : temples.find? (fun t => t.id == temple_id) = some temple)
    (hpass : passes_filters video filters isTrusted = true) :
    bulkStep temples filters details st item =
      if should_assign st.assigned temple_id isTrusted (viewerCount video) then
        { st with assigned :=
            updateA st.assigned temple_id (bulkEntry video_id video temple isTrusted) }
      else st := by
  unfold bulkStep
  rw [hid]
  dsimp only
  rw [if_neg hne, hdet]
  dsimp only
  rw [hmatch]
  dsimp only
  rw [hfind]
  dsimp only
  rw [hpass]
  rw [if_pos rfl]

/-- C2: for a matched, filter-passing candidate, the venue's assignment
after the step is the new candidate exactly when the venue was unassigned,
or the new candidate is trusted while the incumbent is not, or both have
the same trust level and the new candidate has strictly more viewers;
otherwise (in particular on an exact tie) the incumbent is kept. -/
theorem bulk_replacement_rule (temples : List Temple) (filters : Filters)
    (details : List (String × Video)) (st : BulkState) (item : SearchItem)
    (video_id : String) (video : Video) (temple_id : String)
    (isTrusted : Bool) (temple : Temple)
    (hid : item.videoId = some video_id) (hne : video_id ≠ "")
    (hdet : List.lookup video_id details = some video)
    (hmatch : find_matching_temple video.title video.channelId temples
      = (some temple_id, isTrusted))
    (hfind : temples.find? (fun t => t.id == temple_id) = some temple)
    (hpass : passes_filters video filters isTrusted = true) :
    lookupA (bulkStep temples filters details st item).assigned temple_id =
      some (match lookupA st.assigned temple_id with
        | none => bulkEntry video_id video temple isTrusted
        | some current =>
          if (isTrusted = true ∧ current.isTrusted = false) ∨
              (isTrusted = current.isTrusted ∧
                viewerCount video > current.viewer_count) then
            bulkEntry video_id video temple isTrusted
          else current) := by
  rw [bulkStep_matched temples filters details st item video_id video temple_id
    isTrusted temple hid hne hdet hmatch hfind hpass]
  cases hcur : lookupA st.assigned temple_id with
  | none =>
    have hsa : should_assign st.assigned temple_id isTrusted (viewerCount video) = true := by
      unfold should_assign
      rw [hcur]
    simp only [hsa, if_true]
    exact lookupA_updateA_self st.assigned temple_id _
  | some current =>
    have hsa : should_assign st.assigned temple_id isTrusted (viewerCount video) =
        ((isTrusted && !current.isTrusted) ||
          (isTrusted == current.isTrusted &&
            decide (viewerCount video > current.viewer_count))) := by
      unfold should_assign
      rw [hcur]
    by_cases hc : (isTrusted = true ∧ current.isTrusted = false) ∨
        (isTrusted = current.isTrusted ∧ viewerCount video > current.viewer_count)
    · have hb : should_assign st.assigned temple_id isTrusted (viewerCount video) = true := by
        rw [hsa]
        rcases hc with ⟨h1, h2⟩ | ⟨h1, h2⟩
        · rw [h1, h2]
          rfl
        · cases ht : isTrusted <;> rw [ht] at h1 <;> rw [← h1] <;> simp [h2]
      simp only [hb, if_true, if_pos hc]
      exact lookupA_updateA_self st.assigned temple_id _
    · have hb : should_assign st.assigned temple_id isTrusted (viewerCount video) = false := by
        rw [hsa]
        have h1 : ¬ (isTrusted = true ∧ current.isTrusted = false) :=
          fun h => hc (Or.inl h)
        have h2 : ¬ (isTrusted = current.isTrusted ∧
            viewerCount video > current.viewer_count) :=
          fun h => hc (Or.inr h)
        cases ht : isTrusted <;> cases hcu : current.isTrusted <;>
          simp_all [decide_eq_true_iff]
      simp only [hb, Bool.false_eq_true, if_false, if_neg hc]
      exact hcur

/-- A matched, passing candidate with a positive `should_assign` decision
updates the venue's assignment. -/
theorem bulkStep_matched_assign (temples : List Temple) (filters : Filters)
    (details : List (String × Video)) (st : BulkState) (item : SearchItem)
    (video_id : String) (video : Video) (temple_id : String)
    (isTrusted : Bool) (temple : Temple)
    (hid : item.videoId = some video_id) (hne : video_id ≠ "")
    (hdet : List.lookup video_id details = some video)
    (hmatch : find_matching_temple video.title video.channelId temples
      = (some temple_id, isTrusted))
    (hfind : temples.find? (fun t => t.id == temple_id) = some temple)
    (hpass : passes_filters video filters isTrusted = true)
    (hsa : should_assign st.assigned temple_id isTrusted (viewerCount video) = true) :
    bulkStep temples filters details st item =
      { st with assigned :=
          updateA st.assigned temple_id (bulkEntry video_id video temple isTrusted) } := by
  rw [bulkStep_matched temples filters details st item video_id video temple_id
    isTrusted temple hid hne hdet hmatch hfind hpass, hsa]
  exact if_pos rfl

/-- A matched, passing candidate with a negative `should_assign` decision
leaves the state unchanged. -/
theorem bulkStep_matched_keep (temples : List Temple) (filters : Filters)
    (details : List (String × Video)) (st : BulkState) (item : SearchItem)
    (video_id : String) (video : Video) (temple_id : String)
    (isTrusted : Bool) (temple : Temple)
    (hid : item.videoId = some video_id) (hne : video_id ≠ "")
    (hdet : List.lookup video_id details = some video)
    (hmatch : find_matching_temple video.title video.channelId temples
      = (some temple_id, isTrusted))
    (hfind : temples.find? (fun t => t.id == temple_id) = some temple)
    (hpass : passes_filters video filters isTrusted = true)
    (hsa : should_assign st.assigned temple_id isTrusted (viewerCount video) = false) :
    bulkStep temples filters details st item = st := by
  rw [bulkStep_matched temples filters details st item video_id video temple_id
    isTrusted temple hid hne hdet hmatch hfind hpass, hsa]
  exact if_neg (by simp)

def c2Temple : Temple where
  id := "mahakal"
  name := "Mahakal"
  priority := 1
  title_keywords := ["mahakal"]
  trusted_channels := [{ id := "UC-mk", name := "Mahakal Official" }]
  fallback_search := none

def c2Filters : Filters where
  exclude_title_keywords := []
  min_viewer_count_untrusted := 0

def c2v1 : Video := mkVideo "Mahakal Darshan" "UC-x" 10

def c2v2 : Video := mkVideo "Mahakal Live Aarti" "UC-mk" 5

def c2State : BulkState where
  assigned := [("mahakal", bulkEntry "V1" c2v1 c2Temple false)]
  unmatched := []

/-- Witness for `bulk_replacement_rule`: a trusted newcomer with fewer
viewers replaces the untrusted incumbent. -/
theorem bulk_replacement_rule_witness :
    lookupA (bulkStep [c2Temple] c2Filters [("V2", c2v2)] c2State
        { videoId := some "V2" }).assigned "mahakal"
      = some (bulkEntry "V2" c2v2 c2Temple true) := by
  have h := bulk_replacement_rule [c2Temple] c2Filters [("V2", c2v2)] c2State
    { videoId := some "V2" } "V2" c2v2 "mahakal" true c2Temple
    rfl (by decide) (by decide) (by decide) (by decide) (by decide)
  exact h.trans (by decide)

/-! ## C4 — trust dominance in the bulk pass -/

/-- C4: with a trusted passing candidate and an untrusted passing
candidate with strictly more viewers, both matching the same venue, the
bulk pass assigns the trusted one in either processing order. -/
theorem bulk_trust_dominance (temples : List Temple) (filters : Filters)
    (details : List (String × Video)) (i1 i2 : SearchItem)
    (vid1 vid2 : String) (v1 v2 : Video) (tid : String) (temple : Temple)
    (hid1 : i1.videoId = some vid1) (hid2 : i2.videoId = some vid2)
    (hne1 : vid1 ≠ "") (hne2 : vid2 ≠ "")
    (hd1 : List.lookup vid1 details = some v1)
    (hd2 : List.lookup vid2 details = some v2)
    (hm1 : find_matching_temple v1.title v1.channelId temples = (some tid, true))
    (hm2 : find_matching_temple v2.title v2.channelId temples = (some tid, false))
    (hfind : temples.find? (fun t => t.id == tid) = some temple)
    (hp1 : passes_filters v1 filters true = true)
    (hp2 : passes_filters v2 filters false = true)
    (_hv : viewerCount v2 > viewerCount v1) :
    lookupA (bulkPass temples filters details [i1, i2]).assigned tid
      = some (bulkEntry vid1 v1 temple true) ∧
    lookupA (bulkPass temples filters details [i2, i1]).assigned tid
      = some (bulkEntry vid1 v1 temple true) := by
  constructor
  · show lookupA (bulkStep temples filters details
      (bulkStep temples filters details { assigned := [], unmatched := [] } i1)
      i2).assigned tid = _
    rw [bulkStep_matched_assign temples filters details
      { assigned := [], unmatched := [] } i1 vid1 v1 tid true temple
      hid1 hne1 hd1 hm1 hfind hp1 rfl]
    rw [bulkStep_matched_keep temples filters details
      { assigned := updateA [] tid (bulkEntry vid1 v1 temple true), unmatched := [] }
      i2 vid2 v2 tid false temple hid2 hne2 hd2 hm2 hfind hp2
      (by unfold should_assign; rw [lookupA_updateA_self]; rfl)]
    exact lookupA_updateA_self [] tid _
  · show lookupA (bulkStep temples filters details
      (bulkStep temples filters details { assigned := [], unmatched := [] } i2)
      i1).assigned tid = _
    rw [bulkStep_matched_assign temples filters details
      { assigned := [], unmatched := [] } i2 vid2 v2 tid false temple
      hid2 hne2 hd2 hm2 hfind hp2 rfl]
    rw [bulkStep_matched_assign temples filters details
      { assigned := updateA [] tid (bulkEntry vid2 v2 temple false), unmatched := [] }
      i1 vid1 v1 tid true temple hid1 hne1 hd1 hm1 hfind hp1
      (by unfold should_assign; rw [lookupA_updateA_self]; rfl)]
    exact lookupA_updateA_self _ tid _

def c4Trusted : Video := mkVideo "Mahakal Bhasma Aarti" "UC-mk" 10

def c4Untrusted : Video := mkVideo "Mahakal Live Now" "UC-pop" 10000

/-- Witness for `bulk_trust_dominance`: trusted 10-viewer candidate beats
an untrusted 10000-viewer candidate in both orders. -/
theorem bulk_trust_dominance_witness :
    lookupA (bulkPass [c2Temple] c2Filters
        [("VT", c4Trusted), ("VU", c4Untrusted)]
        [{ videoId := some "VT" }, { videoId := some "VU" }]).assigned "mahakal"
      = some (bulkEntry "VT" c4Trusted c2Temple true) ∧
    lookupA (bulkPass [c2Temple] c2Filters
        [("VT", c4Trusted), ("VU", c4Untrusted)]
        [{ videoId := some "VU" }, { videoId := some "VT" }]).assigned "mahakal"
      = some (bulkEntry "VT" c4Trusted c2Temple true) := by
  have h := bulk_trust_dominance [c2Temple] c2Filters
    [("VT", c4Trusted), ("VU", c4Untrusted)]
    { videoId := some "VT" } { videoId := some "VU" } "VT" "VU"
    c4Trusted c4Untrusted "mahakal" c2Temple
    rfl rfl (by decide) (by decide) (by decide) (by decide)
    (by decide) (by decide) (by decide) (by decide) (by decide) (by decide)
  exact h

/-! ## C5 — pool dedup invariants -/

/-- Invariant carried through the dedup fold: every pooled item has a
usable id recorded in the seen set, and pooled ids are pairwise distinct. -/
def poolInv (st : List SearchItem × List String) : Prop :=
  (∀ it ∈ st.1, ∃ v, it.videoId = some v ∧ v ≠ "" ∧ st.2.contains v = true) ∧
  List.Pairwise (fun a b => a.videoId ≠ b.videoId) st.1

theorem dedupStep_seen_mono (st : List SearchItem × List String)
    (item : SearchItem) (v : String) (h : st.2.contains v = true) :
    (dedupStep st item).2.contains v = true := by
  unfold dedupStep
  cases hv : item.videoId with
  | none => exact h
  | some vid =>
    dsimp only
    by_cases hc : vid ≠ "" ∧ ¬ st.2.contains vid
    · rw [if_pos hc]
      simp only [List.contains_cons]
      simp only [Bool.or_eq_true, beq_iff_eq]
      right
      simpa using h
    · rw [if_neg hc]
      exact h

theorem dedupStep_inv (st : List SearchItem × List String) (item : SearchItem)
    (h : poolInv st) : poolInv (dedupStep st item) := by
  obtain ⟨h1, h2⟩ := h
  unfold dedupStep
  cases hv : item.videoId with
  | none => exact ⟨h1, h2⟩
  | some vid =>
    dsimp only
    by_cases hc : vid ≠ "" ∧ ¬ st.2.contains vid
    · rw [if_pos hc]
      constructor
      · intro it hit
        rcases List.mem_append.mp hit with hmem | hmem
        · obtain ⟨v, hv', hne, hcont⟩ := h1 it hmem
          refine ⟨v, hv', hne, ?_⟩
          simp only [List.contains_cons]
          simp only [Bool.or_eq_true, beq_iff_eq]
          right
          simpa using hcont
        · have : it = item := by simpa using hmem
          subst this
          refine ⟨vid, hv, hc.1, ?_⟩
          simp [List.contains_cons]
      · rw [List.pairwise_append]
        refine ⟨h2, by simp, ?_⟩
        intro a ha b hb
        have : b = item := by simpa using hb
        subst this
        obtain ⟨v, hv', hne, hcont⟩ := h1 a ha
        rw [hv', hv]
        intro hcontra
        have : v = vid := by injection hcontra
        subst this
        exact hc.2 hcont
    · rw [if_neg hc]
      exact ⟨h1, h2⟩

theorem dedupStep_shape (st : List SearchItem × List String) (item : SearchItem) :
    ∃ extra, (dedupStep st item).1 = st.1 ++ extra ∧ extra.Sublist [item] := by
  unfold dedupStep
  cases hv : item.videoId with
  | none => exact ⟨[], by simp⟩
  | some vid =>
    dsimp only
    by_cases hc : vid ≠ "" ∧ ¬ st.2.contains vid
    · rw [if_pos hc]
      exact ⟨[item], rfl, List.Sublist.refl _⟩
    · rw [if_neg hc]
      exact ⟨[], by simp⟩

theorem dedup_fold (items : List SearchItem) :
    ∀ st, poolInv st →
      poolInv (items.foldl dedupStep st) ∧
      (∀ v, st.2.contains v = true → (items.foldl dedupStep st).2.contains v = true) ∧
      ∃ extra, (items.foldl dedupStep st).1 = st.1 ++ extra ∧ extra.Sublist items := by
  induction items with
  | nil =>
    intro st h
    exact ⟨h, fun v hv => hv, [], by simp, List.nil_sublist _⟩
  | cons it its ih =>
    intro st h
    obtain ⟨hinv, hmono, e1, he1, hsub1⟩ := ih (dedupStep st it) (dedupStep_inv st it h)
    obtain ⟨e0, he0, hsub0⟩ := dedupStep_shape st it
    refine ⟨hinv, ?_, e0 ++ e1, ?_, ?_⟩
    · intro v hv
      exact hmono v (dedupStep_seen_mono st it v hv)
    · simpa [he0, List.append_assoc] using he1
    · simpa using List.Sublist.append hsub0 hsub1

theorem gs_fold (dateStr : String) (provider : String → ApiOutcome ApiData)
    (queries : List String) :
    ∀ st, poolInv st →
      poolInv (queries.foldl
        (fun st template =>
          ((api_request (provider (template.replace "{date}" dateStr))).items).foldl
            dedupStep st) st) ∧
      ∃ extra,
        (queries.foldl
          (fun st template =>
            ((api_request (provider (template.replace "{date}" dateStr))).items).foldl
              dedupStep st) st).1 = st.1 ++ extra ∧
        extra.Sublist
          ((queries.map
            (fun q => (api_request (provider (q.replace "{date}" dateStr))).items)).flatten) := by
  induction queries with
  | nil =>
    intro st h
    exact ⟨h, [], by simp, by simp⟩
  | cons q qs ih =>
    intro st h
    have hstep := dedup_fold
      ((api_request (provider (q.replace "{date}" dateStr))).items) st h
    obtain ⟨hinv0, _, e0, he0, hsub0⟩ := hstep
    obtain ⟨hinv, e1, he1, hsub1⟩ := ih _ hinv0
    refine ⟨hinv, e0 ++ e1, ?_, ?_⟩
    · simpa [he0, List.append_assoc] using he1
    · simpa using List.Sublist.append hsub0 hsub1

/-- C5: the pool built by the bulk search has only records with a usable
(present, non-empty) `video_id`, pairwise-distinct `video_id`s, and is a
subsequence of the concatenation of all provider result lists — first-seen
order is preserved. -/
theorem global_search_dedup_invariants (queries : List String) (dateStr : String)
    (provider : String → ApiOutcome ApiData) :
    (∀ it ∈ global_search queries dateStr provider,
      ∃ v, it.videoId = some v ∧ v ≠ "") ∧
    List.Pairwise (fun a b => a.videoId ≠ b.videoId)
      (global_search queries dateStr provider) ∧
    (global_search queries dateStr provider).Sublist
      ((queries.map
        (fun q => (api_request (provider (q.replace "{date}" dateStr))).items)).flatten) := by
  have h := gs_fold dateStr provider queries ([], [])
    ⟨by simp, List.Pairwise.nil⟩
  obtain ⟨⟨husable, hpair⟩, extra, hshape, hsub⟩ := h
  have hgs : global_search queries dateStr provider =
      (queries.foldl
        (fun st template =>
          ((api_request (provider (template.replace "{date}" dateStr))).items).foldl
            dedupStep st) ([], [])).1 := rfl
  refine ⟨?_, ?_, ?_⟩
  · intro it hit
    rw [hgs] at hit
    obtain ⟨v, hv, hne, _⟩ := husable it hit
    exact ⟨v, hv, hne⟩
  · rw [hgs]
    exact hpair
  · rw [hgs, hshape]
    simpa using hsub

/-! ## C6 — fallback-pool selection order -/

/-- C6 (amended): in the fallback selection, first every trusted-channel
candidate is tried in result order and the first passer wins; if no
trusted candidate passes, all candidates are retried in the original
result order — not sorted by viewer count — and the first passer wins. -/
theorem fallback_result_order (temple : Temple) (filters : Filters)
    (details : List (String × Video)) :
    (∀ (ids1 : List String) (vid : String) (ids2 : List String) (s : StreamInfo),
      (∀ u ∈ ids1, fbTrustedProbe temple filters details u = none) →
      fbTrustedProbe temple filters details vid = some s →
      fallback_select temple filters (ids1 ++ vid :: ids2) details = some s) ∧
    (∀ (ids1 : List String) (vid : String) (ids2 : List String) (s : StreamInfo),
      (∀ u ∈ ids1 ++ vid :: ids2, fbTrustedProbe temple filters details u = none) →
      (∀ u ∈ ids1, fbAnyProbe temple filters details u = none) →
      fbAnyProbe temple filters details vid = some s →
      fallback_select temple filters (ids1 ++ vid :: ids2) details = some s) := by
  constructor
  · intro ids1 vid ids2 s h1 hvid
    unfold fallback_select
    rw [findSome?_first_hit (fbTrustedProbe temple filters details) ids1 vid ids2 s h1 hvid]
  · intro ids1 vid ids2 s hnone h1 hvid
    unfold fallback_select
    rw [findSome?_all_none (fbTrustedProbe temple filters details) (ids1 ++ vid :: ids2) hnone]
    rw [findSome?_first_hit (fbAnyProbe temple filters details) ids1 vid ids2 s h1 hvid]

def c6Filters : Filters where
  exclude_title_keywords := []
  min_viewer_count_untrusted := 0

def c6Temple : Temple where
  id := "ganga"
  name := "Ganga"
  priority := 3
  title_keywords := ["ganga"]
  trusted_channels := []
  fallback_search := none

def c6vA : Video := mkVideo "Ganga Aarti Cam 1" "UC-a" 1

def c6vB : Video := mkVideo "Ganga Aarti Cam 2" "UC-b" 100

/-- C6 counterexample: with no trusted candidate, the source returns the
first passer in result order (1 viewer), while the claim's sorted
selection would return the 100-viewer candidate. -/
theorem fallback_sort_counterexample :
    fallback_select c6Temple c6Filters ["A", "B"] [("A", c6vA), ("B", c6vB)]
      = some (extract_stream_info "A" c6vA c6Temple false) ∧
    fallback_select_claimed c6Temple c6Filters ["A", "B"] [("A", c6vA), ("B", c6vB)]
      = some (extract_stream_info "B" c6vB c6Temple false) ∧
    viewerCount c6vB > viewerCount c6vA ∧
    fallback_select c6Temple c6Filters ["A", "B"] [("A", c6vA), ("B", c6vB)] ≠
      fallback_select_claimed c6Temple c6Filters ["A", "B"] [("A", c6vA), ("B", c6vB)] := by
  decide

def c6TrTemple : Temple where
  id := "yamuna"
  name := "Yamuna"
  priority := 4
  title_keywords := ["yamuna"]
  trusted_channels := [{ id := "UC-t", name := "Yamuna Official" }]
  fallback_search := none

def c6vX : Video := mkVideo "Yamuna Ghat Cam" "UC-x" 50

def c6vT : Video := mkVideo "Yamuna Aarti Live" "UC-t" 2

/-- Witness for `fallback_result_order`: the trusted candidate wins even
when listed after an untrusted one with more viewers. -/
theorem fallback_result_order_witness :
    fallback_select c6TrTemple c6Filters (["X"] ++ "T" :: [])
        [("X", c6vX), ("T", c6vT)]
      = some (extract_stream_info "T" c6vT c6TrTemple true) :=
  (fallback_result_order c6TrTemple c6Filters [("X", c6vX), ("T", c6vT)]).1
    ["X"] "T" [] (extract_stream_info "T" c6vT c6TrTemple true)
    (by decide) (by decide)

/-! ## C7 — venues assigned in the bulk pass are skipped by the fallback -/

theorem lookupA_any (m : Assigned) (k : String) (e : AssignEntry)
    (h : lookupA m k = some e) : m.any (fun p => p.1 == k) = true := by
  unfold lookupA at h
  cases hf : m.find? (fun p => p.1 == k) with
  | none => rw [hf] at h; exact absurd h (by simp)
  | some p =>
    have hp := List.find?_some hf
    have hm := List.mem_of_find?_eq_some hf
    exact List.any_eq_true.mpr ⟨p, hm, hp⟩

theorem fallbackStep_log (filters : Filters) (details : List (String × Video))
    (unmatched : List UnmatchedItem) (fbP : String → ApiOutcome ApiData)
    (fbD : String → List (String × Video)) (acc : FallbackResult) (temple : Temple) :
    ((fallbackStep filters details unmatched fbP fbD acc temple).processedIds
        = acc.processedIds ++ [temple.id]) ∧
    ((fallbackStep filters details unmatched fbP fbD acc temple).issuedQueries
        = acc.issuedQueries ∨
      (fallbackStep filters details unmatched fbP fbD acc temple).issuedQueries
        = acc.issuedQueries ++ [(temple.id, fallbackQuery temple)]) := by
  unfold fallbackStep
  cases recheckUnmatched temple filters details unmatched with
  | some entry => exact ⟨rfl, Or.inl rfl⟩
  | none =>
    cases fallback_search temple filters fbP fbD with
    | some stream => exact ⟨rfl, Or.inr rfl⟩
    | none => exact ⟨rfl, Or.inr rfl⟩

theorem fallbackFold_processed (filters : Filters) (details : List (String × Video))
    (unmatched : List UnmatchedItem) (fbP : String → ApiOutcome ApiData)
    (fbD : String → List (String × Video)) (l : List Temple) :
    ∀ acc x,
      x ∈ (l.foldl (fallbackStep filters details unmatched fbP fbD) acc).processedIds →
      x ∈ acc.processedIds ∨ ∃ u ∈ l, u.id = x := by
  induction l with
  | nil => intro acc x h; exact Or.inl h
  | cons u us ih =>
    intro acc x h
    rcases ih (fallbackStep filters details unmatched fbP fbD acc u) x h with h1 | h1
    · rw [(fallbackStep_log filters details unmatched fbP fbD acc u).1] at h1
      rcases List.mem_append.mp h1 with h2 | h2
      · exact Or.inl h2
      · have : x = u.id := by simpa using h2
        exact Or.inr ⟨u, List.mem_cons_self u us, this.symm⟩
    · obtain ⟨w, hw, hwx⟩ := h1
      exact Or.inr ⟨w, List.mem_cons_of_mem u hw, hwx⟩

theorem fallbackFold_issued (filters : Filters) (details : List (String × Video))
    (unmatched : List UnmatchedItem) (fbP : String → ApiOutcome ApiData)
    (fbD : String → List (String × Video)) (l : List Temple) :
    ∀ acc x q,
      (x, q) ∈ (l.foldl (fallbackStep filters details unmatched fbP fbD) acc).issuedQueries →
      (x, q) ∈ acc.issuedQueries ∨ ∃ u ∈ l, u.id = x := by
  induction l with
  | nil => intro acc x q h; exact Or.inl h
  | cons u us ih =>
    intro acc x q h
    rcases ih (fallbackStep filters details unmatched fbP fbD acc u) x q h with h1 | h1
    · rcases (fallbackStep_log filters details unmatched fbP fbD acc u).2 with h2 | h2
      · rw [h2] at h1
        exact Or.inl h1
      · rw [h2] at h1
        rcases List.mem_append.mp h1 with h3 | h3
        · exact Or.inl h3
        · have : x = u.id := by
            have := List.mem_singleton.mp h3
            exact congrArg Prod.fst this
          exact Or.inr ⟨u, List.mem_cons_self u us, this.symm⟩
    · obtain ⟨w, hw, hwx⟩ := h1
      exact Or.inr ⟨w, List.mem_cons_of_mem u hw, hwx⟩

/-- C7: a venue holding a bulk-pass assignment is absent from the fallback
phase's audit log — it is neither rechecked against the unmatched set nor
queried. -/
theorem fallback_skips_assigned (temples : List Temple) (filters : Filters)
    (details : List (String × Video)) (st : BulkState)
    (fbP : String → ApiOutcome ApiData) (fbD : String → List (String × Video))
    (tid : String) (e : AssignEntry)
    (h : lookupA st.assigned tid = some e) :
    tid ∉ (fallbackPhase temples filters details st fbP fbD).processedIds ∧
    ∀ q, (tid, q) ∉ (fallbackPhase temples filters details st fbP fbD).issuedQueries := by
  have hany : st.assigned.any (fun p => p.1 == tid) = true := lookupA_any st.assigned tid e h
  have hmiss : ∀ u ∈ missing_temples temples st.assigned, u.id ≠ tid := by
    intro u hu heq
    unfold missing_temples at hu
    rw [List.mem_filter] at hu
    rw [heq] at hu
    rw [hany] at hu
    simp at hu
  constructor
  · intro hmem
    unfold fallbackPhase at hmem
    rcases fallbackFold_processed filters details st.unmatched fbP fbD
      (missing_temples temples st.assigned) _ tid hmem with h1 | h1
    · simp at h1
    · obtain ⟨u, hu, hux⟩ := h1
      exact hmiss u hu hux
  · intro q hmem
    unfold fallbackPhase at hmem
    rcases fallbackFold_issued filters details st.unmatched fbP fbD
      (missing_temples temples st.assigned) _ tid q hmem with h1 | h1
    · simp at h1
    · obtain ⟨u, hu, hux⟩ := h1
      exact hmiss u hu hux

def c7Temple : Temple where
  id := "kashi"
  name := "Kashi Vishwanath"
  priority := 2
  title_keywords := ["kashi"]
  trusted_channels := []
  fallback_search := none

def c7Video : Video := mkVideo "Kashi Vishwanath Live" "UC-k" 7

def c7State : BulkState where
  assigned := [("kashi", bulkEntry "VK" c7Video c7Temple false)]
  unmatched := []

def c7Provider : String → ApiOutcome ApiData := fun _ => ApiOutcome.ok emptyData

def c7Details : String → List (String × Video) := fun _ => []

/-- Witness for `fallback_skips_assigned` at a concrete run where the only
venue already has a bulk assignment. -/
theorem fallback_skips_assigned_witness :
    "kashi" ∉ (fallbackPhase [c7Temple] c6Filters [] c7State
      c7Provider c7Details).processedIds ∧
    ("kashi", "kashi q") ∉ (fallbackPhase [c7Temple] c6Filters [] c7State
      c7Provider c7Details).issuedQueries := by
  have h := fallback_skips_assigned [c7Temple] c6Filters [] c7State
    c7Provider c7Details "kashi" (bulkEntry "VK" c7Video c7Temple false) (by decide)
  exact ⟨h.1, h.2 "kashi q"⟩

/-! ## C8 — output projection order -/

def c8TempleA : Temple where
  id := "a"
  name := "Temple A"
  priority := 2
  title_keywords := ["aaa"]
  trusted_channels := []
  fallback_search := none

def c8TempleB : Temple where
  id := "b"
  name := "Temple B"
  priority := 1
  title_keywords := ["bbb"]
  trusted_channels := []
  fallback_search := none

def c8Assigned : Assigned :=
  [("a", bulkEntry "VA" (mkVideo "aaa live" "UC-1" 3) c8TempleA false),
   ("b", bulkEntry "VB" (mkVideo "bbb live" "UC-2" 4) c8TempleB false)]

/-- C8 evaluated at a failing input: with both venues assigned and the
config declaring the priority-2 venue before the priority-1 venue, the
output (source lines 407-417 iterate the temples list in declaration
order, despite the comment "Collect streams sorted by priority") emits
priorities `[2, 1]` — not non-decreasing. -/
theorem output_priority_order_bug :
    (outputStreams [c8TempleA, c8TempleB] c8Assigned).map
        (fun s => s.temple_id) = ["a", "b"] ∧
    (outputStreams [c8TempleA, c8TempleB] c8Assigned).map
        (fun s => streamPriority [c8TempleA, c8TempleB] s) = [2, 1] ∧
    ¬ List.Sorted (fun a b => a ≤ b)
        ((outputStreams [c8TempleA, c8TempleB] c8Assigned).map
          (fun s => streamPriority [c8TempleA, c8TempleB] s)) := by
  refine ⟨by decide, ?_, ?_⟩
  · decide
  · intro hs
    have h21 : (2 : Nat) ≤ 1 := by
      have heq : (outputStreams [c8TempleA, c8TempleB] c8Assigned).map
          (fun s => streamPriority [c8TempleA, c8TempleB] s) = [2, 1] := by decide
      rw [heq] at hs
      exact List.rel_of_sorted_cons hs 1 (List.mem_singleton.mpr rfl)
    omega

/-! ## C9 — transient provider failure behaves as zero results -/

/-- C9: both failure modes of `api_request` return the empty response
(`{}` as read through `data.get('items', [])`), and a run whose provider
fails some queries is identical to one whose provider returns genuinely
empty result lists there — the failure never escapes and never stops the
remaining queries. -/
theorem provider_failure_yields_empty :
    (∀ (code : Nat) (reason : String),
      api_request (ApiOutcome.httpError code reason) = emptyData) ∧
    (∀ msg : String, api_request (ApiOutcome.exn msg) = emptyData) ∧
    (∀ (queries : List String) (dateStr : String)
      (provider provider2 : String → ApiOutcome ApiData),
      (∀ q, (api_request (provider q)).items = (api_request (provider2 q)).items) →
      global_search queries dateStr provider = global_search queries dateStr provider2) := by
  refine ⟨fun _ _ => rfl, fun _ => rfl, ?_⟩
  intro queries dateStr provider provider2 h
  have aux : ∀ st : List SearchItem × List String,
      queries.foldl
        (fun st template =>
          ((api_request (provider (template.replace "{date}" dateStr))).items).foldl
            dedupStep st) st
        = queries.foldl
          (fun st template =>
            ((api_request (provider2 (template.replace "{date}" dateStr))).items).foldl
              dedupStep st) st := by
    induction queries with
    | nil => intro st; rfl
    | cons q qs ih =>
      intro st
      simp only [List.foldl]
      rw [h (q.replace "{date}" dateStr)]
      exact ih _
  show (queries.foldl
      (fun st template =>
        ((api_request (provider (template.replace "{date}" dateStr))).items).foldl
          dedupStep st) ([], [])).1
    = (queries.foldl
      (fun st template =>
        ((api_request (provider2 (template.replace "{date}" dateStr))).items).foldl
          dedupStep st) ([], [])).1
  rw [aux ([], [])]

/-- Witness for `provider_failure_yields_empty`: a run whose single query
times out equals a run that genuinely returned no items. -/
theorem provider_failure_yields_empty_witness :
    api_request (ApiOutcome.httpError 403 "quotaExceeded") = emptyData ∧
    global_search ["live darshan {date}"] "30 Jan" (fun _ => ApiOutcome.exn "timed out")
      = global_search ["live darshan {date}"] "30 Jan" (fun _ => ApiOutcome.ok emptyData) := by
  refine ⟨provider_failure_yields_empty.1 403 "quotaExceeded", ?_⟩
  exact provider_failure_yields_empty.2.2 ["live darshan {date}"] "30 Jan" _ _
    (fun q => rfl)

/-! ## C10 — the default fallback query -/

theorem fallbackStep_issued_recheck_none (filters : Filters)
    (details : List (String × Video)) (unmatched : List UnmatchedItem)
    (fbP : String → ApiOutcome ApiData) (fbD : String → List (String × Video))
    (acc : FallbackResult) (temple : Temple)
    (hre : recheckUnmatched temple filters details unmatched = none) :
    (fallbackStep filters details unmatched fbP fbD acc temple).issuedQueries
      = acc.issuedQueries ++ [(temple.id, fallbackQuery temple)] := by
  unfold fallbackStep
  rw [hre]
  cases fallback_search temple filters fbP fbD with
  | some stream => rfl
  | none => rfl

theorem fallbackFold_issued_mono (filters : Filters)
    (details : List (String × Video)) (unmatched : List UnmatchedItem)
    (fbP : String → ApiOutcome ApiData) (fbD : String → List (String × Video))
    (l : List Temple) :
    ∀ acc pair, pair ∈ acc.issuedQueries →
      pair ∈ (l.foldl (fallbackStep filters details unmatched fbP fbD) acc).issuedQueries := by
  induction l with
  | nil => intro acc pair h; exact h
  | cons u us ih =>
    intro acc pair h
    apply ih
    rcases (fallbackStep_log filters details unmatched fbP fbD acc u).2 with h2 | h2
    · rw [h2]; exact h
    · rw [h2]; exact List.mem_append_left _ h

theorem fallbackFold_issues (filters : Filters)
    (details : List (String × Video)) (unmatched : List UnmatchedItem)
    (fbP : String → ApiOutcome ApiData) (fbD : String → List (String × Video))
    (l : List Temple) :
    ∀ acc temple, temple ∈ l →
      recheckUnmatched temple filters details unmatched = none →
      (temple.id, fallbackQuery temple)
        ∈ (l.foldl (fallbackStep filters details unmatched fbP fbD) acc).issuedQueries := by
  induction l with
  | nil => intro acc temple h; exact absurd h (List.not_mem_nil temple)
  | cons u us ih =>
    intro acc temple hmem hre
    rcases List.mem_cons.mp hmem with heq | hmem2
    · subst heq
      rw [List.foldl_cons]
      apply fallbackFold_issued_mono
      rw [fallbackStep_issued_recheck_none filters details unmatched fbP fbD acc temple hre]
      exact List.mem_append_right _ (List.mem_singleton.mpr rfl)
    · rw [List.foldl_cons]
      exact ih _ temple hmem2 hre

/-- C10: a venue whose config omits `fallback_search` is not skipped — the
fallback phase issues the default query `"<name> live darshan"` for it
(whenever the venue reaches the query step at all, i.e. it is missing and
its unmatched-set recheck found nothing). -/
theorem fallback_default_query (temple : Temple)
    (h : temple.fallback_search = none) :
    fallbackQuery temple = temple.name ++ " live darshan" ∧
    ∀ (temples : List Temple) (filters : Filters) (details : List (String × Video))
      (st : BulkState) (fbP : String → ApiOutcome ApiData)
      (fbD : String → List (String × Video)),
      temple ∈ missing_temples temples st.assigned →
      recheckUnmatched temple filters details st.unmatched = none →
      (temple.id, temple.name ++ " live darshan")
        ∈ (fallbackPhase temples filters details st fbP fbD).issuedQueries := by
  have hq : fallbackQuery temple = temple.name ++ " live darshan" := by
    unfold fallbackQuery
    rw [h]
    rfl
  refine ⟨hq, ?_⟩
  intro temples filters details st fbP fbD hmem hre
  unfold fallbackPhase
  rw [← hq]
  exact fallbackFold_issues filters details st.unmatched fbP fbD
    (missing_temples temples st.assigned) _ temple hmem hre

def c10Temple : Temple where
  id := "dwarka"
  name := "Dwarka"
  priority := 5
  title_keywords := ["dwarka"]
  trusted_channels := []
  fallback_search := none

/-- Witness for `fallback_default_query`: a missing venue with no
configured fallback query gets the default one issued. -/
theorem fallback_default_query_witness :
    (c10Temple.id, c10Temple.name ++ " live darshan")
      ∈ (fallbackPhase [c10Temple] c6Filters [] { assigned := [], unmatched := [] }
        c7Provider c7Details).issuedQueries :=
  (fallback_default_query c10Temple rfl).2 [c10Temple] c6Filters []
    { assigned := [], unmatched := [] } c7Provider c7Details (by decide) rfl

/-- Witness for `global_search_dedup_invariants`: on a concrete run whose
provider repeats an id and omits one, the pooled item's id is usable. -/
theorem global_search_dedup_invariants_witness :
    ∃ v, ({ videoId := some "A" } : SearchItem).videoId = some v ∧ v ≠ "" :=
  (global_search_dedup_invariants ["q"] "d"
    (fun _ => ApiOutcome.ok
      { items := [{ videoId := some "A" }, { videoId := some "A" },
                  { videoId := none }] })).1
    { videoId := some "A" } (by decide)
